import Mathlib

/-!
Shallow embedding of the core of `stock-stream-2`:
`src/modules/common/validators.py` (symbol / date / OHLCV-row / dataframe
validation) and `src/modules/stock_data_fetcher/fetcher.py`
(`YahooFinanceFetcher`), together with theorems settling the spec claims.

Modelling conventions:
* Python `float` values appearing in OHLCV rows are modelled by `PyNum`
  (an exact rational together with the non-finite values `nan`, `inf`,
  `ninf`); comparison, subtraction, absolute value and division follow
  Python float semantics, in particular division by (exactly) zero raises
  `ZeroDivisionError`.
* Python exceptions are modelled with `Except`: a function that can raise
  returns `Except e a`.
* The regular-expression test `re.match(r"^[A-Z0-9]\x7b1,5\x7d$", s)` is
  modelled operationally, including the CPython semantics of `$`, which
  matches at the end of the string and also just before a newline that is
  the last character.
-/

/-- Python float values as they occur in OHLCV rows: a finite rational or
one of the non-finite values. -/
inductive PyNum where
  | fin (q : ℚ)
  | nan
  | inf
  | ninf
deriving DecidableEq, Repr

namespace PyNum

/-- Python `a <= b` on floats (`nan` compares false with everything). -/
def le : PyNum → PyNum → Bool
  | fin a, fin b => a ≤ b
  | nan, _ => false
  | _, nan => false
  | ninf, _ => true
  | _, inf => true
  | inf, fin _ => false
  | inf, ninf => false
  | fin _, ninf => false

/-- Python `a < b` on floats (`nan` compares false with everything). -/
def lt : PyNum → PyNum → Bool
  | fin a, fin b => a < b
  | nan, _ => false
  | _, nan => false
  | inf, _ => false
  | _, inf => true
  | ninf, ninf => false
  | ninf, fin _ => true
  | fin _, ninf => false

/-- Python `a - b` on floats. -/
def sub : PyNum → PyNum → PyNum
  | fin a, fin b => fin (a - b)
  | nan, _ => nan
  | _, nan => nan
  | inf, inf => nan
  | inf, _ => inf
  | ninf, ninf => nan
  | ninf, _ => ninf
  | fin _, inf => ninf
  | fin _, ninf => inf

/-- Python `abs` on floats. -/
def pabs : PyNum → PyNum
  | fin a => fin |a|
  | nan => nan
  | inf => inf
  | ninf => inf

/-- `math.isfinite`. -/
def isfinite : PyNum → Bool
  | fin _ => true
  | _ => false

end PyNum

/-- Python exceptions that the embedded validator code can raise. -/
inductive PyExc where
  | zeroDivisionError
  | keyError
deriving DecidableEq, Repr

/-- Python `a / b` on floats: dividing by (exactly) zero raises
`ZeroDivisionError` whatever the numerator is; otherwise IEEE semantics. -/
def PyNum.div : PyNum → PyNum → Except PyExc PyNum
  | _, fin 0 => .error .zeroDivisionError
  | nan, _ => .ok nan
  | _, nan => .ok nan
  | fin a, fin b => .ok (fin (a / b))
  | inf, fin b => .ok (if 0 < b then inf else ninf)
  | ninf, fin b => .ok (if 0 < b then ninf else inf)
  | fin _, inf => .ok (fin 0)
  | fin _, ninf => .ok (fin 0)
  | inf, inf => .ok nan
  | inf, ninf => .ok nan
  | ninf, inf => .ok nan
  | ninf, ninf => .ok nan

/-- A Python `date` object: CPython compares dates like the tuple
`(year, month, day)`. -/
structure PyDate where
  year : ℕ
  month : ℕ
  day : ℕ
deriving DecidableEq, Repr

namespace PyDate

/-- Python `d1 < d2` on `date` objects: lexicographic on (year, month, day). -/
def lt (a b : PyDate) : Bool :=
  decide (a.year < b.year) ||
    (decide (a.year = b.year) &&
      (decide (a.month < b.month) ||
        (decide (a.month = b.month) && decide (a.day < b.day))))

end PyDate

/-! ### `validators.py`: `validate_symbol` -/

/-- A character of the class `[A-Z0-9]`. -/
def isUpperAlnum (c : Char) : Bool :=
  ('A' ≤ c && c ≤ 'Z') || ('0' ≤ c && c ≤ '9')

/-- Where `$` matches in CPython (no MULTILINE): at the end of the string,
or just before a newline that is the last character. -/
def dollarMatchesAt (cs : List Char) (k : ℕ) : Bool :=
  decide (k = cs.length) ||
    (decide (k + 1 = cs.length) && decide (cs.getLast? = some '\n'))

/-- Operational model of
`re.match(r"^[A-Z0-9]\x7b1,5\x7d$", s) is not None`:
some count `k` between 1 and 5 of leading `[A-Z0-9]` characters is
followed by a position where `$` matches. -/
def reMatchSymbol (cs : List Char) : Bool :=
  (List.range 5).any fun j =>
    let k := j + 1
    decide (k ≤ cs.length) && (cs.take k).all isUpperAlnum && dollarMatchesAt cs k

/-- Message of the empty-symbol `ValidationError` (validators.py line 23). -/
def emptySymbolMsg : String := "Symbol cannot be empty"

/-- Message of the bad-format `ValidationError` (validators.py lines 26-29). -/
def invalidSymbolMsg (symbol : String) : String :=
  "Invalid symbol format: " ++ symbol ++
    ". Must be 1-5 uppercase alphanumeric characters"

/-- `validate_symbol` (validators.py lines 13-29): raising `ValidationError`
is modelled as returning `.error` with the error's message. -/
def validate_symbol (symbol : String) : Except String Unit :=
  if symbol.isEmpty then
    .error emptySymbolMsg
  else if reMatchSymbol symbol.toList then
    .ok ()
  else
    .error (invalidSymbolMsg symbol)

/-! ### `validators.py`: `validate_date` -/

/-- The epoch floor `date(1990, 1, 1)` (validators.py line 59). -/
def epochFloor : PyDate := ⟨1990, 1, 1⟩

/-- Input to `validate_date`: a `date` object or a string. -/
inductive DateInput where
  | dateVal (d : PyDate)
  | strVal (s : String)

/-- Message of the unparseable-date `ValidationError`. -/
def invalidDateMsg (s : String) : String :=
  "Invalid date format: " ++ s ++ ". Expected ISO format YYYY-MM-DD"

/-- Message of the future-date `ValidationError`. -/
def futureDateMsg : String := "Date cannot be in the future"

/-- Message of the too-old-date `ValidationError`. -/
def tooOldDateMsg : String := "Date too far in the past"

/-- `validate_date` (validators.py lines 32-65).  The stdlib parser
`datetime.fromisoformat(s).date()` is external library code and is passed
in as the function `parse` (`none` models a `ValueError` from parsing);
`today` stands for `date.today()`. -/
def validate_date (parse : String → Option PyDate) (today : PyDate) :
    DateInput → Except String PyDate
  | .strVal s =>
    match parse s with
    | none => .error (invalidDateMsg s)
    | some d =>
      if PyDate.lt today d then .error futureDateMsg
      else if PyDate.lt d epochFloor then .error tooOldDateMsg
      else .ok d
  | .dateVal d =>
    if PyDate.lt today d then .error futureDateMsg
    else if PyDate.lt d epochFloor then .error tooOldDateMsg
    else .ok d

/-! ### `validators.py`: `validate_ohlcv_row` -/

/-- A row dictionary restricted to its numeric entries: a finite map from
field names to numbers, as an association list. -/
def Row : Type := List (String × PyNum)

/-- Python `field in row` / `row[field]` lookup. -/
def lookupField (row : Row) (f : String) : Option PyNum :=
  (List.lookup f row : Option PyNum)

/-- The five required numeric fields (validators.py line 79). -/
def requiredFields : List String := ["open", "high", "low", "close", "volume"]

/-- One structured validation finding of `validate_ohlcv_row`; each
constructor corresponds to one `errors.append(...)` site, carrying the
values interpolated into the message. -/
inductive RowError where
  | missingField (f : String)
  | notPositive (f : String) (v : PyNum)
  | negativeVolume (v : PyNum)
  | highLtLow (h l : PyNum)
  | highLtOpen (h o : PyNum)
  | highLtClose (h c : PyNum)
  | lowGtOpen (l o : PyNum)
  | lowGtClose (l c : PyNum)
  | suspiciousChange (o c : PyNum)
  | notFinite (f : String) (v : PyNum)
deriving DecidableEq, Repr

/-- `validate_ohlcv_row` (validators.py lines 68-124).  The required-field
loop returns on the first missing field; the remaining checks are
cumulative.  The suspicious-change check divides by `row["open"]`, which in
Python raises `ZeroDivisionError` when the open is zero — hence the
`Except` result type.  The fallback `.error .keyError` branch models
`row[field]` on an absent key and is unreachable once the required-field
loop has passed. -/
def validate_ohlcv_row (row : Row) : Except PyExc (List RowError) :=
  match requiredFields.find? (fun f => (lookupField row f).isNone) with
  | some f => .ok [RowError.missingField f]
  | none =>
    match lookupField row "open", lookupField row "high", lookupField row "low",
        lookupField row "close", lookupField row "volume" with
    | some o, some h, some l, some c, some v =>
      let posErrs :=
        (["open", "high", "low", "close"].filterMap fun f =>
          match lookupField row f with
          | some x => if PyNum.le x (.fin 0) then some (RowError.notPositive f x) else none
          | none => none)
      let volErrs := if PyNum.lt v (.fin 0) then [RowError.negativeVolume v] else []
      let relErrs :=
        (if PyNum.lt h l then [RowError.highLtLow h l] else []) ++
        (if PyNum.lt h o then [RowError.highLtOpen h o] else []) ++
        (if PyNum.lt h c then [RowError.highLtClose h c] else []) ++
        (if PyNum.lt o l then [RowError.lowGtOpen l o] else []) ++
        (if PyNum.lt c l then [RowError.lowGtClose l c] else [])
      match PyNum.div (PyNum.pabs (PyNum.sub c o)) o with
      | .error exc => .error exc
      | .ok change =>
        let suspErrs :=
          if PyNum.lt (.fin (1 / 2)) change then [RowError.suspiciousChange o c] else []
        let finErrs :=
          requiredFields.filterMap fun f =>
            match lookupField row f with
            | some x => if !x.isfinite then some (RowError.notFinite f x) else none
            | none => none
        .ok (posErrs ++ volErrs ++ relErrs ++ suspErrs ++ finErrs)
    | _, _, _, _, _ => .error .keyError

/-! ### `validators.py`: `validate_dataframe` -/

/-- A row of the polars frame handed to `validate_dataframe`: the
`symbol` / `date` columns plus the numeric entries. -/
structure DFRow where
  symbol : String
  date : PyDate
  fields : Row

/-- The polars `DataFrame` as far as `validate_dataframe` observes it:
its column names and its rows in iteration order. -/
structure DataFrame where
  columns : List String
  rows : List DFRow

/-- The required columns (validators.py line 139). -/
def requiredColumns : List String :=
  ["symbol", "date", "open", "high", "low", "close", "volume"]

/-- One finding of `validate_dataframe`. -/
inductive BatchError where
  | missingColumns (cols : List String)
  | emptyFrame
  | duplicatePairs (n : ℕ)
  | rowError (symbol : String) (date : PyDate) (e : RowError)
deriving DecidableEq, Repr

/-- The `for row in df.iter_rows(named=True)` loop of `validate_dataframe`
(validators.py lines 156-159): each row's findings, tagged with the row's
symbol and date; an exception from `validate_ohlcv_row` propagates. -/
def validateRowsLoop : List DFRow → Except PyExc (List BatchError)
  | [] => .ok []
  | r :: rest =>
    match validate_ohlcv_row r.fields with
    | .error exc => .error exc
    | .ok es =>
      match validateRowsLoop rest with
      | .error exc => .error exc
      | .ok more => .ok ((es.map fun e => BatchError.rowError r.symbol r.date e) ++ more)

/-- `validate_dataframe` (validators.py lines 127-161): missing required
columns and the empty frame return immediately; otherwise one aggregate
duplicate-count error (polars `is_duplicated().sum()` counts every row
whose `(symbol, date)` pair occurs more than once) followed by the per-row
findings, each tagged with the row's symbol and date. -/
def validate_dataframe (df : DataFrame) : Except PyExc (List BatchError) :=
  let missing := requiredColumns.filter (fun c => decide (¬ c ∈ df.columns))
  if missing ≠ [] then .ok [BatchError.missingColumns missing]
  else if df.rows.length = 0 then .ok [BatchError.emptyFrame]
  else
    let keys := df.rows.map fun r => (r.symbol, r.date)
    let duplicates := (keys.filter fun k => 2 ≤ keys.count k).length
    let dupErrs := if 0 < duplicates then [BatchError.duplicatePairs duplicates] else []
    match validateRowsLoop df.rows with
    | .error exc => .error exc
    | .ok rowErrs => .ok (dupErrs ++ rowErrs)

/-! ### `fetcher.py`: `YahooFinanceFetcher` -/

/-- Constructor configuration of `YahooFinanceFetcher` (fetcher.py lines
20-38).  `rate_limit_delay` is a Python float, modelled as a rational;
`retry_delay` is a Python int, modelled as an integer. -/
structure FetcherConfig where
  rate_limit_delay : ℚ := 2
  max_retries : ℕ := 5
  retry_delay : ℤ := 60
  timeout : ℕ := 900

/-- The two run-long counters of the fetcher object (fetcher.py lines
39-40). -/
structure FetchState where
  symbols_fetched : ℕ
  symbols_failed : ℕ
deriving DecidableEq, Repr

/-- The first row of a non-empty remote response, as read by fetcher.py
lines 98-113 (`data.index[0].date()`, `data["Open"].iloc[0]`, ...). -/
structure RemoteRow where
  date : PyDate
  openV : PyNum
  highV : PyNum
  lowV : PyNum
  closeV : PyNum
  volumeV : ℤ
deriving DecidableEq, Repr

/-- What one call `ticker.history(...)` does, as observed by the fetcher:
either it raises an exception with some message, or it returns a frame
that is empty, or a frame whose first row carries the OHLCV values. -/
inductive RemoteOutcome where
  | exn (msg : String)
  | empty
  | rows (first : RemoteRow)

/-- The observation dictionary built by `fetch_single_symbol` on success
(fetcher.py lines 98-113).  `adjusted_close` is set from `data["Close"]`,
the same column as `close`. -/
structure Observation where
  symbol : String
  date : PyDate
  open_ : PyNum
  high : PyNum
  low : PyNum
  close : PyNum
  volume : ℤ
  adjusted_close : PyNum
deriving DecidableEq, Repr

/-- `result = { "symbol": symbol, ..., "adjusted_close": float(data["Close"].iloc[0]) }`
(fetcher.py lines 98-113): both `close` and `adjusted_close` read the
`Close` column. -/
def mkObservation (symbol : String) (r : RemoteRow) : Observation :=
  { symbol := symbol
    date := r.date
    open_ := r.openV
    high := r.highV
    low := r.lowV
    close := r.closeV
    volume := r.volumeV
    adjusted_close := r.closeV }

/-- Errors that `fetch_single_symbol` / `fetch_multiple_symbols` can raise:
`ValidationError` (with its message), `RateLimitError` (details: symbol and
attempt budget), `DataFetchError` (details: `symbols_attempted`). -/
inductive FetchError where
  | validation (msg : String)
  | rateLimit (symbol : String) (attempts : ℕ)
  | dataFetch (symbols_attempted : ℕ)
deriving DecidableEq, Repr

/-- `needle in hay` on character sequences: some suffix of `hay` starts
with `needle`. -/
def containsSeq (needle : List Char) : List Char → Bool
  | [] => needle.isEmpty
  | c :: cs => needle.isPrefixOf (c :: cs) || containsSeq needle cs

/-- Lowercasing plus substring containment: models
`error_str = str(e).lower()` and `"429" in error_str or
"too many requests" in error_str` (fetcher.py lines 120-123). -/
def isRateLimitMsg (msg : String) : Bool :=
  let l := msg.toList.map Char.toLower
  containsSeq "429".toList l || containsSeq "too many requests".toList l

/-- Everything one call to `fetch_single_symbol` does, besides returning:
the returned value or raised error, the increments applied to the two
counters, the total backoff time slept, and how many remote requests were
issued. -/
structure SingleOut where
  result : Except FetchError (Option Observation)
  fetchedInc : ℕ
  failedInc : ℕ
  sleep : ℤ
  attempts : ℕ
deriving Repr

/-- The `for attempt in range(self.max_retries)` loop of
`fetch_single_symbol` (fetcher.py lines 69-169), one oracle consultation
per remote request.  `fuel` is the number of remaining iterations
(initially `max_retries`), `attempt` the zero-based index, `sleepAcc` the
backoff already slept, `att` the requests already issued.  Falling off the
end of the loop returns `None` (line 169). -/
def fetchLoop (cfg : FetcherConfig) (oracle : ℕ → RemoteOutcome) (symbol : String) :
    ℕ → ℕ → ℤ → ℕ → SingleOut
  | 0, _, sleepAcc, att => ⟨.ok none, 0, 0, sleepAcc, att⟩
  | fuel + 1, attempt, sleepAcc, att =>
    match oracle attempt with
    | .rows r =>
      ⟨.ok (some (mkObservation symbol r)), 1, 0, sleepAcc, att + 1⟩
    | .empty =>
      ⟨.ok none, 0, 1, sleepAcc, att + 1⟩
    | .exn msg =>
      if isRateLimitMsg msg then
        if attempt < cfg.max_retries - 1 then
          fetchLoop cfg oracle symbol fuel (attempt + 1)
            (sleepAcc + cfg.retry_delay * 2 ^ attempt) (att + 1)
        else
          ⟨.error (.rateLimit symbol cfg.max_retries), 0, 1, sleepAcc, att + 1⟩
      else
        if attempt < cfg.max_retries - 1 then
          fetchLoop cfg oracle symbol fuel (attempt + 1)
            (sleepAcc + cfg.retry_delay * 2 ^ attempt) (att + 1)
        else
          ⟨.ok none, 0, 1, sleepAcc, att + 1⟩

/-- `fetch_single_symbol` (fetcher.py lines 42-169): validate the symbol
(a `ValidationError` propagates before any request or counter update),
then run the attempt loop. -/
def fetch_single_symbol (cfg : FetcherConfig) (oracle : ℕ → RemoteOutcome)
    (symbol : String) : SingleOut :=
  match validate_symbol symbol with
  | .error e => ⟨.error (.validation e), 0, 0, 0, 0⟩
  | .ok _ => fetchLoop cfg oracle symbol cfg.max_retries 0 0 0

/-- The `for i, symbol in enumerate(symbols)` loop of
`fetch_multiple_symbols` plus its total-failure check (fetcher.py lines
186-209): each symbol's fetch result is appended when not `None`; an
exception raised by `fetch_single_symbol` propagates with the counter
updates made so far; when the loop finishes with no results a
`DataFetchError` carrying `symbols_attempted = total` is raised.  The
unconditional pacing sleep between symbols (lines 195-200) does not touch
the state and is not tracked here. -/
def fetchMultiLoop (cfg : FetcherConfig) (oracles : ℕ → ℕ → RemoteOutcome)
    (total : ℕ) :
    ℕ → List String → List Observation → FetchState →
      Except FetchError (List Observation) × FetchState
  | _, [], acc, st =>
    if acc.isEmpty then (.error (.dataFetch total), st) else (.ok acc, st)
  | i, symbol :: rest, acc, st =>
    let out := fetch_single_symbol cfg (oracles i) symbol
    let st' : FetchState :=
      ⟨st.symbols_fetched + out.fetchedInc, st.symbols_failed + out.failedInc⟩
    match out.result with
    | .error e => (.error e, st')
    | .ok none => fetchMultiLoop cfg oracles total (i + 1) rest acc st'
    | .ok (some obs) => fetchMultiLoop cfg oracles total (i + 1) rest (acc ++ [obs]) st'

/-- `fetch_multiple_symbols` (fetcher.py lines 171-230).  `oracles i` is
the remote behaviour seen while fetching the `i`-th symbol.  The final
`validate_dataframe` call on the assembled frame (lines 214-221) only
feeds a log message and does not change the returned value or the state. -/
def fetch_multiple_symbols (cfg : FetcherConfig) (oracles : ℕ → ℕ → RemoteOutcome)
    (symbols : List String) (st : FetchState) :
    Except FetchError (List Observation) × FetchState :=
  fetchMultiLoop cfg oracles symbols.length 0 symbols [] st

/-! ## Spec-side predicates and shared helper lemmas -/

/-- Spec-side reading of the pattern `[A-Z0-9]` repeated 1 to 5 times,
matched in full: between one and five characters, all uppercase ASCII
alphanumerics. -/
def symbolCoreMatches (cs : List Char) : Prop :=
  1 ≤ cs.length ∧ cs.length ≤ 5 ∧ ∀ c ∈ cs, isUpperAlnum c = true

/-- What the CPython-anchored regex actually accepts: the full-match
language, or a full match followed by one trailing newline. -/
def pythonSymbolMatch (cs : List Char) : Prop :=
  symbolCoreMatches cs ∨ ∃ core, cs = core ++ ['\n'] ∧ symbolCoreMatches core

/-- Spec-side strict order on dates, written on the components. -/
def specDateLt (a b : PyDate) : Prop :=
  a.year < b.year ∨
    (a.year = b.year ∧ (a.month < b.month ∨ (a.month = b.month ∧ a.day < b.day)))

/-- Spec-side non-strict order on dates. -/
def specDateLe (a b : PyDate) : Prop :=
  specDateLt a b ∨ (a.year = b.year ∧ a.month = b.month ∧ a.day = b.day)

/-- A fixed sample remote response row used by concrete witnesses. -/
def sampleRemoteRow : RemoteRow :=
  ⟨⟨2024, 12, 24⟩, .fin 50, .fin 52, .fin 49, .fin 51, 1000000⟩

/-- The always-rate-limited remote source used by concrete inputs. -/
def rateLimitOracle : ℕ → RemoteOutcome := fun _ => .exn "429 Too Many Requests"

/-- The always-failing (non-rate-limit) remote source used by concrete
inputs. -/
def alwaysDownOracle : ℕ → ℕ → RemoteOutcome := fun _ _ => .exn "network down"

/-- The always-succeeding remote source used by concrete inputs. -/
def goodRowOracle : ℕ → ℕ → RemoteOutcome := fun _ _ => .rows sampleRemoteRow

lemma isUpperAlnum_newline : isUpperAlnum '\n' = false := by decide

lemma reMatchSymbol_iff (cs : List Char) :
    reMatchSymbol cs = true ↔ pythonSymbolMatch cs := by
  unfold reMatchSymbol pythonSymbolMatch symbolCoreMatches dollarMatchesAt
  simp only [List.any_eq_true, List.mem_range, Bool.and_eq_true, Bool.or_eq_true,
    decide_eq_true_eq, List.all_eq_true]
  constructor
  · rintro ⟨j, hj, ⟨hk, hall⟩, hend⟩
    rcases hend with hlen | ⟨hlen, hlast⟩
    · left
      refine ⟨by omega, by omega, fun c hc => hall c ?_⟩
      rw [hlen, List.take_length]
      exact hc
    · right
      have hne : cs ≠ [] := by
        intro h
        rw [h] at hlen
        simp at hlen
      refine ⟨cs.dropLast, ?_, ?_, ?_, ?_⟩
      · have hsplit := List.dropLast_append_getLast hne
        rw [List.getLast?_eq_getLast cs hne, Option.some_inj] at hlast
        simpa [hlast] using hsplit.symm
      · rw [List.dropLast_eq_take, List.length_take]
        omega
      · rw [List.dropLast_eq_take, List.length_take]
        omega
      · intro c hc
        apply hall
        rw [List.dropLast_eq_take] at hc
        have hlen2 : cs.length - 1 = j + 1 := by omega
        rwa [hlen2] at hc
  · rintro (⟨h1, h5, hall⟩ | ⟨core, hcs, h1, h5, hall⟩)
    · refine ⟨cs.length - 1, by omega, ⟨by omega, fun c hc => hall c ?_⟩, ?_⟩
      · have hlen2 : cs.length - 1 + 1 = cs.length := by omega
        rw [hlen2, List.take_length] at hc
        exact hc
      · left
        omega
    · refine ⟨core.length - 1, by omega, ⟨?_, fun c hc => ?_⟩, ?_⟩
      · rw [hcs, List.length_append]
        simp only [List.length_singleton]
        omega
      · apply hall
        have hlen2 : core.length - 1 + 1 = core.length := by omega
        rw [hlen2] at hc
        rw [hcs, List.take_left' rfl] at hc
        exact hc
      · right
        constructor
        · rw [hcs, List.length_append]
          simp only [List.length_singleton]
          omega
        · rw [hcs, List.getLast?_concat]

lemma validate_symbol_ok_iff (s : String) :
    validate_symbol s = .ok () ↔ pythonSymbolMatch s.toList := by
  rw [← reMatchSymbol_iff]
  show (if s.isEmpty then (.error emptySymbolMsg : Except String Unit)
      else if reMatchSymbol s.toList then .ok () else .error (invalidSymbolMsg s)) = .ok ()
    ↔ reMatchSymbol s.toList = true
  by_cases hempty : s.isEmpty = true
  · rw [if_pos hempty]
    have hsnil : s = "" := (String.isEmpty_iff s).mp hempty
    constructor
    · intro h
      simp at h
    · intro h
      rw [hsnil] at h
      exact absurd h (by decide)
  · rw [if_neg hempty]
    by_cases hm : reMatchSymbol s.toList = true
    · rw [if_pos hm]
      exact ⟨fun _ => hm, fun _ => rfl⟩
    · rw [if_neg hm]
      exact ⟨fun h => by simp at h, fun h => absurd h hm⟩

/-- Claim C4 (counterexample): the string "AB\n" contains a character that
is not an uppercase alphanumeric, yet `validate_symbol` accepts it, because
CPython's `$` also matches just before a trailing newline.  The claim as
stated (acceptance iff a full match of `[A-Z0-9]` one to five times)
is therefore false. -/
theorem validate_symbol_trailing_newline_cex :
    validate_symbol "AB\n" = .ok () ∧
      ¬ (∀ c ∈ "AB\n".toList, isUpperAlnum c = true) := by
  constructor
  · rfl
  · intro h
    exact absurd (h '\n' (by decide)) (by decide)

/-- Claim C4 (amended): `validate_symbol` succeeds exactly on the strings
matching `[A-Z0-9]` one-to-five times in full, or such a match followed by
a single trailing newline (the CPython `$` semantics); it fails on the
empty string and on everything else. -/
theorem validate_symbol_characterization (s : String) :
    validate_symbol s = .ok () ↔ pythonSymbolMatch s.toList :=
  validate_symbol_ok_iff s

/-! ### Claim C5: `validate_date` range check -/

lemma pyDateLt_iff (a b : PyDate) : PyDate.lt a b = true ↔ specDateLt a b := by
  unfold PyDate.lt specDateLt
  simp only [Bool.or_eq_true, Bool.and_eq_true, decide_eq_true_eq]

lemma pyDateLt_eq_false_iff (a b : PyDate) : PyDate.lt a b = false ↔ specDateLe b a := by
  rw [← Bool.not_eq_true, pyDateLt_iff]
  unfold specDateLt specDateLe
  constructor
  · intro h
    by_cases hy : a.year = b.year
    · by_cases hm : a.month = b.month
      · by_cases hd : a.day = b.day
        · exact Or.inr ⟨hy.symm, hm.symm, hd.symm⟩
        · left
          right
          refine ⟨hy.symm, ?_⟩
          right
          refine ⟨hm.symm, ?_⟩
          omega
      · left
        rcases Nat.lt_or_ge a.month b.month with hlt | hge
        · exact absurd (Or.inr ⟨hy, Or.inl hlt⟩) h
        · right
          refine ⟨hy.symm, Or.inl ?_⟩
          omega
    · rcases Nat.lt_or_ge a.year b.year with hlt | hge
      · exact absurd (Or.inl hlt) h
      · left
        left
        omega
  · rintro (hlt | ⟨hy, hm, hd⟩) hcon
    · rcases hlt with hy | ⟨hy, hm | ⟨hm, hd⟩⟩ <;>
        rcases hcon with hy' | ⟨hy', hm' | ⟨hm', hd'⟩⟩ <;> omega
    · rcases hcon with hy' | ⟨hy', hm' | ⟨hm', hd'⟩⟩ <;> omega

lemma specDateLt_le_false {a b : PyDate} (h1 : specDateLt a b) (h2 : specDateLe b a) :
    False := by
  unfold specDateLt at h1
  unfold specDateLe specDateLt at h2
  rcases h1 with hy | ⟨hy, hm | ⟨hm, hd⟩⟩ <;>
    rcases h2 with (hy' | ⟨hy', hm' | ⟨hm', hd'⟩⟩) | ⟨hy', hm', hd'⟩ <;> omega

/-- Claim C5: for an input that normalizes to the date `d` (a date value,
or a string that the ISO parser maps to `d`), `validate_date` succeeds and
returns exactly `d` iff 1990-01-01 ≤ `d` ≤ today, and fails iff `d` is
strictly after today or strictly before 1990-01-01. -/
theorem validate_date_range_characterization
    (parse : String → Option PyDate) (today : PyDate) (inp : DateInput) (d : PyDate)
    (hnorm : inp = .dateVal d ∨ ∃ s, inp = .strVal s ∧ parse s = some d) :
    (validate_date parse today inp = .ok d ↔
      (specDateLe epochFloor d ∧ specDateLe d today)) ∧
    ((∃ e, validate_date parse today inp = .error e) ↔
      (specDateLt today d ∨ specDateLt d epochFloor)) := by
  have hbody : validate_date parse today inp =
      (if PyDate.lt today d then .error futureDateMsg
       else if PyDate.lt d epochFloor then .error tooOldDateMsg
       else .ok d) := by
    rcases hnorm with rfl | ⟨s, rfl, hs⟩
    · rfl
    · show (match parse s with
        | none => (.error (invalidDateMsg s) : Except String PyDate)
        | some d =>
          if PyDate.lt today d then .error futureDateMsg
          else if PyDate.lt d epochFloor then .error tooOldDateMsg
          else .ok d) = _
      rw [hs]
  rw [hbody]
  by_cases hfut : PyDate.lt today d = true
  · rw [if_pos hfut]
    rw [pyDateLt_iff] at hfut
    refine ⟨⟨fun h => by simp at h, fun h => ?_⟩,
      fun _ => Or.inl hfut, fun _ => ⟨futureDateMsg, rfl⟩⟩
    exact absurd (specDateLt_le_false hfut h.2) (fun f => f)
  · rw [if_neg hfut]
    have hled : specDateLe d today :=
      (pyDateLt_eq_false_iff today d).mp (Bool.eq_false_iff.mpr hfut)
    by_cases hold : PyDate.lt d epochFloor = true
    · rw [if_pos hold]
      rw [pyDateLt_iff] at hold
      refine ⟨⟨fun h => by simp at h, fun h => ?_⟩,
        fun _ => Or.inr hold, fun _ => ⟨tooOldDateMsg, rfl⟩⟩
      exact absurd (specDateLt_le_false hold h.1) (fun f => f)
    · rw [if_neg hold]
      have hlef : specDateLe epochFloor d :=
        (pyDateLt_eq_false_iff d epochFloor).mp (Bool.eq_false_iff.mpr hold)
      refine ⟨⟨fun _ => ⟨hlef, hled⟩, fun _ => rfl⟩, ?_, ?_⟩
      · rintro ⟨e, he⟩
        simp at he
      · intro h
        rcases h with h | h
        · rw [← pyDateLt_iff] at h
          exact absurd h hfut
        · rw [← pyDateLt_iff] at h
          exact absurd h hold

/-- Claim C5 (witness): 2024-01-01 is between the epoch floor and a 2026
today, and `validate_date` returns it unchanged. -/
theorem validate_date_range_characterization_witness :
    validate_date (fun _ => none) ⟨2026, 10, 12⟩ (.dateVal ⟨2024, 1, 1⟩) =
      .ok ⟨2024, 1, 1⟩ :=
  (validate_date_range_characterization (fun _ => none) ⟨2026, 10, 12⟩
      (.dateVal ⟨2024, 1, 1⟩) ⟨2024, 1, 1⟩ (Or.inl rfl)).1.mpr
    ⟨Or.inl (by unfold specDateLt epochFloor; decide),
     Or.inl (by unfold specDateLt; decide)⟩

/-! ### Claims C2, C7, C8: the OHLCV row and frame validators -/

/-- Claim C2 (failing input): on the row
`{open: 0, high: 1, low: 1, close: 1, volume: 1}` the suspicious-change
check divides `abs(close - open)` by `open` and raises
`ZeroDivisionError`, so `validate_observation` is not total: it does not
terminate normally when the open field is zero, contradicting the spec's
"never raises". -/
theorem validate_ohlcv_row_zero_open_raises :
    validate_ohlcv_row
        [("open", .fin 0), ("high", .fin 1), ("low", .fin 1),
         ("close", .fin 1), ("volume", .fin 1)] =
      .error .zeroDivisionError := by
  rfl

/-- Claim C7: on a row missing at least one of the five required fields,
`validate_observation` returns normally with exactly one finding, a
missing-field error (the first missing field in checking order); in
particular no numeric-rule finding is produced for such a row. -/
theorem validate_ohlcv_row_missing_field_only_missing_errors
    (row : Row) (hmiss : ∃ f ∈ requiredFields, lookupField row f = none) :
    ∃ f, lookupField row f = none ∧
      validate_ohlcv_row row = .ok [RowError.missingField f] := by
  have hfind : ∃ g, requiredFields.find? (fun f => (lookupField row f).isNone) = some g := by
    rw [← Option.isSome_iff_exists, List.find?_isSome]
    obtain ⟨f, hf, hn⟩ := hmiss
    exact ⟨f, hf, by simp [hn]⟩
  obtain ⟨g, hg⟩ := hfind
  refine ⟨g, ?_, ?_⟩
  · have := List.find?_some hg
    simpa [Option.isNone_iff_eq_none] using this
  · unfold validate_ohlcv_row
    rw [hg]

/-- Claim C7 (witness): the row `{open: 50, high: 52}` is missing `low`,
and the validator reports exactly one missing-field finding. -/
theorem validate_ohlcv_row_missing_field_witness :
    ∃ f, lookupField [("open", PyNum.fin 50), ("high", PyNum.fin 52)] f = none ∧
      validate_ohlcv_row [("open", PyNum.fin 50), ("high", PyNum.fin 52)] =
        .ok [RowError.missingField f] :=
  validate_ohlcv_row_missing_field_only_missing_errors
    [("open", PyNum.fin 50), ("high", PyNum.fin 52)]
    ⟨"low", by decide, rfl⟩

/-- Claim C8: `validate_batch` is deterministic and side-effect-free on its
input: the source computes only from the frame's columns and rows, mutates
nothing, and so the embedding is a pure function — two calls on the same
input yield the same error list. -/
theorem validate_dataframe_deterministic (df : DataFrame) :
    validate_dataframe df = validate_dataframe df := rfl

/-! ### Claims C9, C10, C3: `fetch_single_symbol` -/

lemma fetch_single_symbol_invalid_eq (cfg : FetcherConfig) (oracle : ℕ → RemoteOutcome)
    (symbol : String) (msg : String) (hv : validate_symbol symbol = .error msg) :
    fetch_single_symbol cfg oracle symbol = ⟨.error (.validation msg), 0, 0, 0, 0⟩ := by
  unfold fetch_single_symbol
  rw [hv]

/-- Claim C9: on a format-invalid symbol, `fetch_single_symbol` raises the
format `ValidationError` before touching any state: no request is issued,
no backoff is slept, and neither `symbols_fetched` nor `symbols_failed` is
incremented. -/
theorem fetch_single_invalid_symbol_state_unchanged
    (cfg : FetcherConfig) (oracle : ℕ → RemoteOutcome) (symbol msg : String)
    (hv : validate_symbol symbol = .error msg) :
    fetch_single_symbol cfg oracle symbol = ⟨.error (.validation msg), 0, 0, 0, 0⟩ :=
  fetch_single_symbol_invalid_eq cfg oracle symbol msg hv

/-- Claim C9 (witness): the lowercase symbol "ab" is rejected with no
counter movement. -/
theorem fetch_single_invalid_symbol_state_unchanged_witness :
    fetch_single_symbol {} (fun _ => .empty) "ab" =
      ⟨.error (.validation (invalidSymbolMsg "ab")), 0, 0, 0, 0⟩ :=
  fetch_single_invalid_symbol_state_unchanged {} (fun _ => .empty) "ab"
    (invalidSymbolMsg "ab") rfl

lemma fetchLoop_ok_some_adjusted (cfg : FetcherConfig) (oracle : ℕ → RemoteOutcome)
    (symbol : String) :
    ∀ (fuel attempt : ℕ) (sleepAcc : ℤ) (att : ℕ) (obs : Observation),
      (fetchLoop cfg oracle symbol fuel attempt sleepAcc att).result = .ok (some obs) →
      obs.adjusted_close = obs.close := by
  intro fuel
  induction fuel with
  | zero =>
    intro attempt sleepAcc att obs h
    simp [fetchLoop] at h
  | succ fuel ih =>
    intro attempt sleepAcc att obs h
    unfold fetchLoop at h
    cases horacle : oracle attempt with
    | rows r =>
      rw [horacle] at h
      simp only at h
      injection h with h2
      injection h2 with h3
      rw [← h3]
      rfl
    | empty =>
      rw [horacle] at h
      simp at h
    | exn msg =>
      rw [horacle] at h
      simp only at h
      by_cases hrl : isRateLimitMsg msg = true
      · rw [if_pos hrl] at h
        by_cases hlast : attempt < cfg.max_retries - 1
        · rw [if_pos hlast] at h
          exact ih _ _ _ obs h
        · rw [if_neg hlast] at h
          simp at h
      · rw [if_neg hrl] at h
        by_cases hlast : attempt < cfg.max_retries - 1
        · rw [if_pos hlast] at h
          exact ih _ _ _ obs h
        · rw [if_neg hlast] at h
          simp at h

/-- Claim C10: every observation returned by a successful
`fetch_single_symbol` has `adjusted_close` equal to `close` — both are
read from the remote response's `Close` column. -/
theorem fetch_single_adjusted_close_eq_close
    (cfg : FetcherConfig) (oracle : ℕ → RemoteOutcome) (symbol : String)
    (obs : Observation)
    (h : (fetch_single_symbol cfg oracle symbol).result = .ok (some obs)) :
    obs.adjusted_close = obs.close := by
  unfold fetch_single_symbol at h
  cases hv : validate_symbol symbol with
  | error e =>
    rw [hv] at h
    simp at h
  | ok u =>
    rw [hv] at h
    exact fetchLoop_ok_some_adjusted cfg oracle symbol _ _ _ _ obs h

/-- Claim C10 (witness): a concrete successful fetch, whose observation has
equal `adjusted_close` and `close`. -/
theorem fetch_single_adjusted_close_eq_close_witness :
    (mkObservation "BHP" sampleRemoteRow).adjusted_close =
      (mkObservation "BHP" sampleRemoteRow).close :=
  fetch_single_adjusted_close_eq_close {} (fun _ => .rows sampleRemoteRow) "BHP"
    (mkObservation "BHP" sampleRemoteRow) rfl

/-- Claim C3 (counterexample): with `max_retries = 2` and
`retry_delay = 60`, an always-rate-limited fetch sleeps a total of 60
seconds (one backoff before the second attempt), not
`60 * 1 + 60 * 2 = 180` as the claim states. -/
theorem fetch_single_rate_limit_sleep_cex :
    (fetch_single_symbol {max_retries := 2, retry_delay := 60} rateLimitOracle
        "BHP").sleep ≠ 60 * 1 + 60 * 2 := by
  have hval : (fetch_single_symbol {max_retries := 2, retry_delay := 60} rateLimitOracle
      "BHP").sleep = 60 := by rfl
  rw [hval]
  decide

/-- Claim C3 (amended): with `max_retries = 2`, a valid symbol and a remote
source that always raises a rate-limit error, `fetch_single_symbol` raises
the distinguished `RateLimitError` (counting the symbol as failed), issues
exactly 2 requests, and the total backoff sleep is `base_delay * 1`: the
only backoff is the one before the second (last) attempt, after which the
error is raised without further sleeping. -/
theorem fetch_single_rate_limited_two_attempts
    (cfg : FetcherConfig) (symbol : String) (oracle : ℕ → RemoteOutcome)
    (hmax : cfg.max_retries = 2)
    (hvalid : validate_symbol symbol = .ok ())
    (horacle : ∀ n, ∃ m, oracle n = .exn m ∧ isRateLimitMsg m = true) :
    fetch_single_symbol cfg oracle symbol =
      ⟨.error (.rateLimit symbol 2), 0, 1, cfg.retry_delay * 1, 2⟩ := by
  obtain ⟨m0, ho0, hrl0⟩ := horacle 0
  obtain ⟨m1, ho1, hrl1⟩ := horacle 1
  unfold fetch_single_symbol
  rw [hvalid]
  show fetchLoop cfg oracle symbol cfg.max_retries 0 0 0 = _
  rw [hmax]
  simp only [fetchLoop, ho0, ho1, hrl0, hrl1, hmax]
  norm_num

/-- Claim C3 (witness): concrete instance with `retry_delay = 60`: the
rate-limit error is raised after exactly 2 requests and a total backoff
sleep of `60 * 1`. -/
theorem fetch_single_rate_limited_two_attempts_witness :
    fetch_single_symbol {max_retries := 2, retry_delay := 60} rateLimitOracle "BHP" =
      ⟨.error (.rateLimit "BHP" 2), 0, 1, 60 * 1, 2⟩ :=
  fetch_single_rate_limited_two_attempts {max_retries := 2, retry_delay := 60}
    "BHP" rateLimitOracle rfl rfl
    (fun _ => ⟨"429 Too Many Requests", rfl, by decide⟩)

/-! ### Claims C6, C1: `fetch_multiple_symbols` -/

lemma fetchMultiLoop_all_none (cfg : FetcherConfig) (oracles : ℕ → ℕ → RemoteOutcome)
    (total : ℕ) :
    ∀ (syms : List String) (i : ℕ) (st : FetchState),
      (∀ j (h : j < syms.length),
        (fetch_single_symbol cfg (oracles (i + j)) (syms.get ⟨j, h⟩)).result = .ok none) →
      (fetchMultiLoop cfg oracles total i syms [] st).1 = .error (.dataFetch total) := by
  intro syms
  induction syms with
  | nil =>
    intro i st _
    rfl
  | cons sym rest ih =>
    intro i st hall
    have h0 := hall 0 (by simp)
    simp only [List.get, Nat.add_zero] at h0
    unfold fetchMultiLoop
    simp only [h0]
    apply ih (i + 1)
    intro j hj
    have hsh := hall (j + 1) (by simpa using Nat.succ_lt_succ hj)
    have harith : i + (j + 1) = i + 1 + j := by omega
    rw [harith] at hsh
    exact hsh

/-- Claim C6: when every symbol of a non-empty batch is fetched without an
observation and without a raised error (the non-rate-limit failure paths),
`fetch_multiple_symbols` raises a `DataFetchError` whose details carry
`symbols_attempted` equal to the length of the input list. -/
theorem fetch_multiple_total_failure
    (cfg : FetcherConfig) (oracles : ℕ → ℕ → RemoteOutcome)
    (symbols : List String) (st : FetchState)
    (_hne : symbols ≠ [])
    (hall : ∀ j (h : j < symbols.length),
      (fetch_single_symbol cfg (oracles j) (symbols.get ⟨j, h⟩)).result = .ok none) :
    (fetch_multiple_symbols cfg oracles symbols st).1 =
      .error (.dataFetch symbols.length) := by
  unfold fetch_multiple_symbols
  apply fetchMultiLoop_all_none cfg oracles symbols.length symbols 0 st
  intro j hj
  have := hall j hj
  simpa using this

/-- Claim C6 (witness): both "X" and "Y" always fail with a non-rate-limit
error under `max_retries = 1`; the batch call raises `DataFetchError` with
`symbols_attempted = 2`. -/
theorem fetch_multiple_total_failure_witness :
    (fetch_multiple_symbols {max_retries := 1} alwaysDownOracle ["X", "Y"] ⟨0, 0⟩).1 =
      .error (.dataFetch 2) :=
  fetch_multiple_total_failure {max_retries := 1} alwaysDownOracle ["X", "Y"] ⟨0, 0⟩
    (by decide)
    (fun j hj =>
      match j with
      | 0 => rfl
      | 1 => rfl
      | j + 2 => absurd hj (by simp only [List.length_cons, List.length_nil]; omega))

/-- Claim C1 (counterexample): with the malformed symbol "ab" first in the
batch and a remote source under which every well-formed symbol succeeds,
`fetch_multiple_symbols` propagates the format `ValidationError` to its
caller instead of continuing: the well-formed symbol "AAA", which on its
own yields an observation, is never reached. -/
theorem fetch_multiple_malformed_symbol_cex :
    (fetch_multiple_symbols {} goodRowOracle ["ab", "AAA"] ⟨0, 0⟩).1 =
      .error (.validation (invalidSymbolMsg "ab")) ∧
    (fetch_multiple_symbols {} goodRowOracle ["AAA"] ⟨0, 0⟩).1 =
      .ok [mkObservation "AAA" sampleRemoteRow] :=
  ⟨rfl, rfl⟩

lemma fetchMultiLoop_malformed (cfg : FetcherConfig) (oracles : ℕ → ℕ → RemoteOutcome)
    (total : ℕ) (sym : String) (rest : List String) (msg : String)
    (hv : validate_symbol sym = .error msg) :
    ∀ (pre : List String) (i : ℕ) (acc : List Observation) (st : FetchState),
      (∀ j (h : j < pre.length),
        (fetch_single_symbol cfg (oracles (i + j)) (pre.get ⟨j, h⟩)).result.isOk = true) →
      (fetchMultiLoop cfg oracles total i (pre ++ sym :: rest) acc st).1 =
        .error (.validation msg) := by
  intro pre
  induction pre with
  | nil =>
    intro i acc st _
    have hfs := fetch_single_symbol_invalid_eq cfg (oracles i) sym msg hv
    simp only [List.nil_append]
    unfold fetchMultiLoop
    simp only [hfs]
  | cons p pre ih =>
    intro i acc st hpre
    have h0 := hpre 0 (by simp)
    simp only [List.get, Nat.add_zero] at h0
    simp only [List.cons_append]
    unfold fetchMultiLoop
    cases hres : (fetch_single_symbol cfg (oracles i) p).result with
    | error e =>
      rw [hres] at h0
      simp [Except.isOk, Except.toBool] at h0
    | ok v =>
      have hnext : ∀ j (h : j < pre.length),
          (fetch_single_symbol cfg (oracles (i + 1 + j)) (pre.get ⟨j, h⟩)).result.isOk
            = true := by
        intro j hj
        have hsh := hpre (j + 1) (by simpa using Nat.succ_lt_succ hj)
        have harith : i + (j + 1) = i + 1 + j := by omega
        rw [harith] at hsh
        exact hsh
      cases v with
      | none =>
        simp only [hres]
        exact ih (i + 1) acc _ hnext
      | some obs =>
        simp only [hres]
        exact ih (i + 1) (acc ++ [obs]) _ hnext

/-- Claim C1 (amended): a malformed symbol anywhere in the batch is fatal
for the whole batch, not only for that input: once the loop reaches it
(all earlier fetches having returned rather than raised),
`fetch_single_symbol`'s format `ValidationError` propagates out of
`fetch_multiple_symbols`, and the remaining symbols are not attempted. -/
theorem fetch_multiple_malformed_symbol_aborts
    (cfg : FetcherConfig) (oracles : ℕ → ℕ → RemoteOutcome)
    (pre : List String) (sym : String) (rest : List String)
    (st : FetchState) (msg : String)
    (hv : validate_symbol sym = .error msg)
    (hpre : ∀ j (h : j < pre.length),
      (fetch_single_symbol cfg (oracles j) (pre.get ⟨j, h⟩)).result.isOk = true) :
    (fetch_multiple_symbols cfg oracles (pre ++ sym :: rest) st).1 =
      .error (.validation msg) := by
  unfold fetch_multiple_symbols
  apply fetchMultiLoop_malformed cfg oracles (pre ++ sym :: rest).length sym rest msg hv
    pre 0 [] st
  intro j hj
  have := hpre j hj
  simpa using this

/-- Claim C1 (amended, witness): "AAA" succeeds, then the malformed "ab"
aborts the batch with the propagated `ValidationError`; "BBB" is never
attempted. -/
theorem fetch_multiple_malformed_symbol_aborts_witness :
    (fetch_multiple_symbols {} goodRowOracle ["AAA", "ab", "BBB"] ⟨0, 0⟩).1 =
      .error (.validation (invalidSymbolMsg "ab")) :=
  fetch_multiple_malformed_symbol_aborts {} goodRowOracle ["AAA"] "ab" ["BBB"]
    ⟨0, 0⟩ (invalidSymbolMsg "ab") rfl
    (fun j hj =>
      match j with
      | 0 => rfl
      | j + 1 => absurd hj (by simp only [List.length_cons, List.length_nil]; omega))
